import Mathlib

/-!
Verification development for the emergent-ai-test-bed backend:
a shallow embedding of the in-memory job/session registries, the
thread-status cache, the trajectory reconciliation logic and the staged
generation workflows, together with theorems settling the specification
claims about them.

Registries (Python dicts) are embedded as ordered association lists with
dict semantics: an assignment to an existing key replaces its value in
place, a fresh key is appended at the end.  Python `None` becomes `none`,
truthiness of optional strings is modelled explicitly, and timestamps are
the ISO strings / epoch numbers the source stores and compares.
-/

/-- Python dict lookup `d.get(k)` on an ordered association list. -/
def regGet {α : Type} (reg : List (String × α)) (k : String) : Option α :=
  match reg with
  | [] => none
  | (k2, v) :: rest => if k2 == k then some v else regGet rest k

/-- Python dict assignment `d[k] = v`: replaces the value of an existing
key in place, appends a fresh key at the end. -/
def regSet {α : Type} (reg : List (String × α)) (k : String) (v : α) :
    List (String × α) :=
  match reg with
  | [] => [(k, v)]
  | (k2, v2) :: rest =>
      if k2 == k then (k2, v) :: rest else (k2, v2) :: regSet rest k v

theorem regGet_regSet_same {α : Type} (reg : List (String × α)) (k : String)
    (v : α) : regGet (regSet reg k v) k = some v := by
  induction reg with
  | nil => simp [regGet, regSet]
  | cons p rest ih =>
      obtain ⟨k2, v2⟩ := p
      by_cases h : k2 = k
      · simp [regGet, regSet, h]
      · simp [regGet, regSet, h, ih]

theorem regGet_regSet_other {α : Type} (reg : List (String × α))
    (k k2 : String) (v : α) (h : ¬(k2 = k)) :
    regGet (regSet reg k v) k2 = regGet reg k2 := by
  have h2 : ¬(k = k2) := fun hc => h hc.symm
  induction reg with
  | nil => simp [regGet, regSet, h2]
  | cons p rest ih =>
      obtain ⟨k3, v3⟩ := p
      by_cases h3 : k3 = k
      · subst h3
        simp [regGet, regSet, h2]
      · by_cases h4 : k3 = k2
        · subst h4
          simp [regGet, regSet, h3]
        · simp [regGet, regSet, h3, h4, ih]

theorem regSet_regSet_same {α : Type} (reg : List (String × α)) (k : String)
    (v v2 : α) : regSet (regSet reg k v) k v2 = regSet reg k v2 := by
  induction reg with
  | nil => simp [regSet]
  | cons p rest ih =>
      obtain ⟨k3, v3⟩ := p
      by_cases h : k3 = k
      · simp [regSet, h]
      · simp [regSet, h, ih]

/-!  ## generation_jobs.py : the job registry  -/

/-- `GenerationJob` dataclass (generation_jobs.py).  `started_at` and
`completed_at` are epoch timestamps; `generation_time` and the opaque
`result` payload are carried through unchanged (the result is modelled by
its user-facing message text). -/
structure GenerationJob where
  id : String
  status : String
  stage : String
  progress : Nat
  error : Option String
  result : Option String
  started_at : Nat
  completed_at : Option Nat
  generation_time : Option Rat
deriving DecidableEq, Repr

def JobRegistry : Type := List (String × GenerationJob)

/-- `create_job` (generation_jobs.py): fresh job with the dataclass
defaults, inserted into the registry.  The uuid and clock are inputs. -/
def create_job (reg : JobRegistry) (job_id : String) (now : Nat) :
    GenerationJob × JobRegistry :=
  let job : GenerationJob :=
    { id := job_id
      status := "pending"
      stage := "Initializing..."
      progress := 0
      error := none
      result := none
      started_at := now
      completed_at := none
      generation_time := none }
  (job, regSet reg job_id job)

/-- `get_job` (generation_jobs.py): `generation_jobs.get(job_id)`. -/
def get_job (reg : JobRegistry) (job_id : String) : Option GenerationJob :=
  regGet reg job_id

/-- The closed set of keyword fields actually passed to `update_job` by
the source; an absent field (`none`) is an omitted kwarg. -/
structure JobUpdate where
  status : Option String
  stage : Option String
  progress : Option Nat
  error : Option String
  result : Option String
  generation_time : Option Rat
  completed_at : Option Nat
deriving DecidableEq, Repr

def JobUpdate.empty : JobUpdate :=
  { status := none, stage := none, progress := none, error := none,
    result := none, generation_time := none, completed_at := none }

/-- A supplied kwarg value overrides the stored one; an omitted kwarg
leaves it untouched. -/
def mergeOpt {α : Type} (new old : Option α) : Option α :=
  match new with
  | some v => some v
  | none => old

/-- `setattr(job, key, value)` for each supplied kwarg. -/
def applyJobUpdate (j : GenerationJob) (u : JobUpdate) : GenerationJob :=
  { j with
    status := u.status.getD j.status
    stage := u.stage.getD j.stage
    progress := u.progress.getD j.progress
    error := mergeOpt u.error j.error
    result := mergeOpt u.result j.result
    generation_time := mergeOpt u.generation_time j.generation_time
    completed_at := mergeOpt u.completed_at j.completed_at }

/-- `update_job` (generation_jobs.py): fetches the job, silently does
nothing when the id is absent, otherwise sets the supplied fields. -/
def update_job (reg : JobRegistry) (job_id : String) (u : JobUpdate) :
    JobRegistry :=
  match get_job reg job_id with
  | none => reg
  | some j => regSet reg job_id (applyJobUpdate j u)

/-!  ## Raw LangGraph messages and checkpoint history

The reconciliation endpoints read heterogeneous JSON: a message may be a
dict carrying `type`, `content` and an `additional_kwargs` side channel
with optional `reward` and `stop`, or some non-dict value (skipped by
every `isinstance(msg, dict)` guard in the source).  -/

/-- The `additional_kwargs` per-message metadata side channel. -/
structure MsgKwargs where
  reward : Option Rat
  stop : Option Bool
deriving DecidableEq, Repr

/-- A raw message from a thread checkpoint. -/
inductive RawMsg where
  | dict (type : String) (content : String) (kwargs : MsgKwargs)
  | nondict
deriving DecidableEq, Repr

/-- One entry of a thread history: a dict checkpoint whose `values` key
may be present (carrying a `messages` list, an absent `messages` key
being the empty list) or absent, or a non-dict entry. -/
inductive Checkpoint where
  | cdict (values : Option (List RawMsg))
  | cnondict
deriving DecidableEq, Repr

/-- `get_thread_history` responses: a list of checkpoints, a single
checkpoint dict, or anything else. -/
inductive ThreadHistory where
  | hlist (checkpoints : List Checkpoint)
  | hdict (values : Option (List RawMsg))
  | other
deriving DecidableEq, Repr

/-- Message extraction shared by `get_simulation_status` and
`run_evaluation` (server.py): take the last checkpoint of a list history
(earlier checkpoints are superseded), the `values.messages` of a single
dict history, and `[]` in every other case. -/
def extract_messages (history : ThreadHistory) : List RawMsg :=
  match history with
  | .hlist checkpoints =>
      match checkpoints.getLast? with
      | some (.cdict (some messages)) => messages
      | some (.cdict none) => []
      | some .cnondict => []
      | none => []
  | .hdict (some messages) => messages
  | .hdict none => []
  | .other => []

/-!  ## simulation_tracker.py : the session registry  -/

/-- A simulation tracking session (the dict built by
`create_simulation_session`).  Timestamps are the ISO-8601 strings the
source stores and compares lexicographically. -/
structure SimSession where
  simulation_id : String
  persona_id : String
  goal_id : String
  max_turns : Nat
  status : String
  current_turn : Nat
  trajectory : List RawMsg
  started_at : String
  completed_at : Option String
  error : Option String
  goal_achieved : Bool
  should_stop : Bool
deriving DecidableEq, Repr

def SessionRegistry : Type := List (String × SimSession)

/-- `create_simulation_session` (simulation_tracker.py). -/
def create_simulation_session (reg : SessionRegistry) (simulation_id : String)
    (persona_id : String) (goal_id : String) (max_turns : Nat)
    (now : String) : SimSession × SessionRegistry :=
  let session : SimSession :=
    { simulation_id := simulation_id
      persona_id := persona_id
      goal_id := goal_id
      max_turns := max_turns
      status := "running"
      current_turn := 0
      trajectory := []
      started_at := now
      completed_at := none
      error := none
      goal_achieved := false
      should_stop := false }
  (session, regSet reg simulation_id session)

/-- `get_simulation_session` (simulation_tracker.py). -/
def get_simulation_session (reg : SessionRegistry) (simulation_id : String) :
    Option SimSession :=
  regGet reg simulation_id

/-- The optional arguments of `update_simulation_session`; `new_messages`
defaults to the empty list (Python `None` and `[]` behave identically
under the truthiness test the source applies). -/
structure SessionUpdate where
  status : Option String
  current_turn : Option Nat
  new_messages : List RawMsg
  goal_achieved : Option Bool
  error : Option String
deriving DecidableEq, Repr

/-- Python truthiness of an optional string: `None` and `""` are falsy. -/
def truthyStr (o : Option String) : Bool :=
  match o with
  | some s => !(s == "")
  | none => false

/-- The `status in ["completed", "failed", "stopped"]` test applied to
the `status` argument of `update_simulation_session`. -/
def terminalStatusArg (o : Option String) : Bool :=
  match o with
  | some s => s == "completed" || s == "failed" || s == "stopped"
  | none => false

/-- The field-by-field body of `update_simulation_session`: each truthy
(or non-None, as the source tests) argument is written, and any terminal
`status` argument additionally writes `completed_at = now` -
unconditionally, whether or not it was already set. -/
def applySessionUpdate (s : SimSession) (u : SessionUpdate) (now : String) :
    SimSession :=
  let s1 := if truthyStr u.status then { s with status := u.status.getD "" } else s
  let s2 := match u.current_turn with
            | some t => { s1 with current_turn := t }
            | none => s1
  let s3 := if u.new_messages.isEmpty then s2
            else { s2 with trajectory := s2.trajectory ++ u.new_messages }
  let s4 := match u.goal_achieved with
            | some g => { s3 with goal_achieved := g }
            | none => s3
  let s5 := if truthyStr u.error then { s4 with error := u.error } else s4
  if terminalStatusArg u.status then { s5 with completed_at := some now } else s5

/-- `update_simulation_session` (simulation_tracker.py): silently returns
when the id is unknown, otherwise mutates the stored session. -/
def update_simulation_session (reg : SessionRegistry) (simulation_id : String)
    (u : SessionUpdate) (now : String) : SessionRegistry :=
  match get_simulation_session reg simulation_id with
  | none => reg
  | some s => regSet reg simulation_id (applySessionUpdate s u now)

/-- `stop_simulation` (simulation_tracker.py): sets `should_stop` and
returns whether the id existed. -/
def stop_simulation (reg : SessionRegistry) (simulation_id : String) :
    Bool × SessionRegistry :=
  match get_simulation_session reg simulation_id with
  | some s => (true, regSet reg simulation_id { s with should_stop := true })
  | none => (false, reg)

/-- `should_stop_simulation` (simulation_tracker.py). -/
def should_stop_simulation (reg : SessionRegistry) (simulation_id : String) :
    Bool :=
  match get_simulation_session reg simulation_id with
  | some s => s.should_stop
  | none => false

/-- The removal test of `cleanup_old_sessions`: a truthy `completed_at`
lexicographically below the cutoff ISO timestamp. -/
def sessionRemovable (s : SimSession) (cutoff : String) : Bool :=
  match s.completed_at with
  | some c => !(c == "") && decide (c < cutoff)
  | none => false

/-- `cleanup_old_sessions` (simulation_tracker.py): the two-phase
mark-then-delete over the dict equals one order-preserving filter.  The
cutoff string is `now - max_age_hours` rendered in ISO form; the sweep
logic itself only compares it to each stored `completed_at`. -/
def cleanup_old_sessions (reg : SessionRegistry) (cutoff : String) :
    SessionRegistry :=
  reg.filter (fun p => !(sessionRemovable p.2 cutoff))

/-- `stop_simulation_endpoint` (server.py): signal the stop flag, 404
(`none`) when the id is unknown, then write `status="stopped"` through
`update_simulation_session`. -/
def stop_simulation_endpoint (reg : SessionRegistry) (simulation_id : String)
    (now : String) : Option SessionRegistry :=
  let r := stop_simulation reg simulation_id
  if r.1 then
    some (update_simulation_session r.2 simulation_id
      { status := some "stopped", current_turn := none, new_messages := [],
        goal_achieved := none, error := none } now)
  else
    none

/-!  ## thread_status.py : the per-thread status cache  -/

/-- A cached per-thread status record.  `set_thread_status` always writes
`status`; the remaining keys are present only when they have been
supplied, which `Option` captures. -/
structure ThreadStatus where
  status : String
  stopped_reason : Option String
  current_turn : Option Nat
  max_turns : Option Nat
deriving DecidableEq, Repr

def ThreadStatusRegistry : Type := List (String × ThreadStatus)

/-- The `{"status": "unknown"}` default of `get_thread_status`. -/
def unknownThreadStatus : ThreadStatus :=
  { status := "unknown", stopped_reason := none, current_turn := none,
    max_turns := none }

/-- `set_thread_status` (thread_status.py): creates-or-updates the record,
always writing `status` and writing each remaining argument only when it
is truthy / non-None, as the source tests. -/
def set_thread_status (reg : ThreadStatusRegistry) (thread_id : String)
    (status : String) (stopped_reason : Option String)
    (current_turn : Option Nat) (max_turns : Option Nat) :
    ThreadStatusRegistry :=
  let base := match regGet reg thread_id with
              | some r => r
              | none => unknownThreadStatus
  let r1 := { base with status := status }
  let r2 := if truthyStr stopped_reason
            then { r1 with stopped_reason := stopped_reason } else r1
  let r3 := match current_turn with
            | some t => { r2 with current_turn := some t }
            | none => r2
  let r4 := match max_turns with
            | some m => { r3 with max_turns := some m }
            | none => r3
  regSet reg thread_id r4

/-- `get_thread_status` (thread_status.py):
`thread_statuses.get(thread_id, {"status": "unknown"})`. -/
def get_thread_status (reg : ThreadStatusRegistry) (thread_id : String) :
    ThreadStatus :=
  match regGet reg thread_id with
  | some r => r
  | none => unknownThreadStatus

/-!  ## server.py `get_simulation_status`: the reconciliation view  -/

/-- `m.get("additional_kwargs", {}).get("stop", False)` on the last
message, guarded by the `isinstance(last_msg, dict)` test. -/
def lastMsgStop (messages : List RawMsg) : Bool :=
  match messages.getLast? with
  | some (.dict _ _ kw) => kw.stop.getD false
  | some .nondict => false
  | none => false

/-- `last_msg.get("type") == "human"` on the last message, guarded by the
same `isinstance` test. -/
def lastMsgIsHuman (messages : List RawMsg) : Bool :=
  match messages.getLast? with
  | some (.dict t _ _) => t == "human"
  | some .nondict => false
  | none => false

/-- `sum(1 for m in messages if isinstance(m, dict) and
m.get("type") == "human")` (server.py, current-turn derivation). -/
def humanMessageSum (messages : List RawMsg) : Nat :=
  (messages.map (fun m =>
    match m with
    | .dict t _ _ => if t == "human" then 1 else 0
    | .nondict => 0)).sum

/-- The derived portion of the `get_simulation_status` response. -/
structure SimStatusView where
  status : String
  current_turn : Nat
  trajectory : List RawMsg
  should_continue_polling : Bool
deriving DecidableEq, Repr

/-- The pure reconciliation core of `get_simulation_status` (server.py):
extract the last checkpoint messages, read the embedded stop flag and
role of the last message, count human messages, and assemble the
response fields derived from the thread. -/
def get_simulation_status_view (history : ThreadHistory) : SimStatusView :=
  let messages := extract_messages history
  let should_stop := lastMsgStop messages
  let last_message_is_human := lastMsgIsHuman messages
  { status := if should_stop then "completed" else "running"
    current_turn := humanMessageSum messages
    trajectory := messages
    should_continue_polling := !should_stop || last_message_is_human }

/-- Modelled from the words of the specification, for comparison with the
code-derived `humanMessageSum`: the count of user-role messages. -/
def countUserMessages (messages : List RawMsg) : Nat :=
  messages.countP (fun m =>
    match m with
    | .dict t _ _ => t == "human"
    | .nondict => false)

/-!  ## server.py `run_evaluation`: reward aggregation  -/

/-- The three reward accumulators of `run_evaluation` (server.py). -/
structure RewardAgg where
  total_reward : Rat
  positive_rewards : Rat
  negative_penalties : Rat
deriving DecidableEq, Repr

/-- One iteration of the reward loop of `run_evaluation`: non-dict
messages are skipped, the reward defaults to `0`, positive rewards and
absolute negative rewards feed their accumulators, and every reward is
added to the total. -/
def rewardStep (acc : RewardAgg) (m : RawMsg) : RewardAgg :=
  match m with
  | .nondict => acc
  | .dict _ _ kw =>
      let reward := kw.reward.getD 0
      let acc1 :=
        if 0 < reward then
          { acc with positive_rewards := acc.positive_rewards + reward }
        else if reward < 0 then
          { acc with negative_penalties := acc.negative_penalties + abs reward }
        else acc
      { acc1 with total_reward := acc1.total_reward + reward }

/-- The reward-aggregation loop of `run_evaluation` (server.py),
starting from zeroed accumulators. -/
def run_evaluation_rewards (messages : List RawMsg) : RewardAgg :=
  messages.foldl rewardStep
    { total_reward := 0, positive_rewards := 0, negative_penalties := 0 }

/-- The reward annotation present on a message, if any (spec side:
"messages without a reward contribute nothing"). -/
def messageReward (m : RawMsg) : Option Rat :=
  match m with
  | .dict _ _ kw => kw.reward
  | .nondict => none

/-- The list of rewards actually present on a message list. -/
def presentRewards (messages : List RawMsg) : List Rat :=
  messages.filterMap messageReward

/-!  ## server.py : the staged generation workflows

Each background task is embedded as the ordered trace of `update_job`
writes it performs, parameterised by the request and by the outcome of
the one external collaborator call it makes (`persona_manager.generate`
resp. `goal_manager.generate`); raising collaborators follow the
exception paths of the source.  The trace is replayed against a registry
with `runJobTrace`. -/

/-- Python substring test `sub in s`. -/
def strContains (s sub : String) : Bool :=
  (s.splitOn sub).length != 1

/-- Python `a or b` on optional strings, as in
`request.description or request.message`. -/
def pyOr (a b : Option String) : Option String :=
  if truthyStr a then a else b

/-- The request fields `run_persona_generation` reads.
`non_default_config` abstracts the floating-point comparison
`model != "gpt-4o-mini" or temperature != 0.7 or max_tokens != 1500`
into the boolean it produces. -/
structure PersonaRequest where
  description : Option String
  message : Option String
  model : String
  count : Nat
  organization_id : Option String
  use_exa_enrichment : Bool
  non_default_config : Bool
deriving DecidableEq, Repr

/-- A generated persona, by the only field the job trace reads. -/
structure Persona where
  name : String
deriving DecidableEq, Repr

/-- Outcome of the `persona_manager.generate` collaborator call:
a result list, a raised `ValueError`, or any other raised exception. -/
inductive PersonaGenOutcome where
  | ok (personas : List Persona)
  | valueError (msg : String)
  | exc (msg : String)
deriving DecidableEq, Repr

/-- Stage-only write: `update_job(job_id, stage=s, progress=p)`. -/
def stageU (s : String) (p : Nat) : JobUpdate :=
  { JobUpdate.empty with stage := some s, progress := some p }

/-- Failure write with a stage label:
`update_job(job_id, status="failed", error=e, stage=st)`. -/
def failU (e st : String) : JobUpdate :=
  { JobUpdate.empty with
      status := some "failed",
      error := some e,
      stage := some st }

/-- Failure write without a stage label. -/
def failNoStageU (e : String) : JobUpdate :=
  { JobUpdate.empty with status := some "failed", error := some e }

/-- The user-facing result message built by `run_persona_generation`. -/
def personaResultMsg (count : Nat) (personas : List Persona) : String :=
  if count == 1 then
    match personas with
    | p :: _ => "✓ Created persona: " ++ p.name
    | [] => "✓ Created persona: "
  else
    "✓ Created " ++ toString personas.length ++ " personas: " ++
      String.intercalate ", " (personas.map Persona.name)

/-- The staged writes of `run_persona_generation` performed before the
collaborator call, for a truthy description `d`. -/
def personaStagePrefix (req : PersonaRequest) (d : String) : List JobUpdate :=
  [{ JobUpdate.empty with
       status := some "running",
       stage := some "Preparing generation",
       progress := some 10 }]
  ++ (if req.non_default_config then
        [stageU ("Configuring " ++ req.model) 15] else [])
  ++ (if truthyStr req.organization_id then
        [stageU "Loading organization context" 20] else [])
  ++ (if req.use_exa_enrichment then
        [stageU ("🔍 Searching Exa.ai for: \x27" ++ d.take 50
          ++ "...\x27") 25] else [])

/-- The stage written right after a successful collaborator call. -/
def personaPostGenStage (req : PersonaRequest) : JobUpdate :=
  if req.use_exa_enrichment then
    stageU "✓ Exa enrichment complete, generating with AI..." 50
  else if 1 < req.count then
    stageU ("Generating " ++ toString req.count ++ " personas with "
      ++ req.model ++ "...") 40
  else
    stageU ("Calling AI model (" ++ req.model ++ ")...") 40

/-- The saving-stage write of `run_persona_generation`. -/
def personaSavingStage (req : PersonaRequest) : JobUpdate :=
  if 1 < req.count then
    stageU ("Saving " ++ toString req.count ++ " personas") 95
  else
    stageU "Saving persona" 95

/-- The completion write of `run_persona_generation`: the only write in
the source that supplies `completed_at`. -/
def personaCompleteU (req : PersonaRequest) (personas : List Persona)
    (generation_time : Rat) (now : Nat) : JobUpdate :=
  { JobUpdate.empty with
      status := some "completed",
      stage := some "Complete",
      progress := some 100,
      result := some (personaResultMsg req.count personas),
      generation_time := some generation_time,
      completed_at := some now }

/-- `run_persona_generation` (server.py) as its ordered `update_job`
trace.  A raised `ValueError` mentioning `"Exa"` is caught by the inner
handler (stage `"Exa enrichment failed"`); every other raise reaches the
outer handler (stage `"Error occurred"`). -/
def run_persona_generation (req : PersonaRequest)
    (outcome : PersonaGenOutcome) (generation_time : Rat) (now : Nat) :
    List JobUpdate :=
  match pyOr req.description req.message with
  | none => [failNoStageU "description or message required"]
  | some d =>
    if d == "" then [failNoStageU "description or message required"]
    else
      personaStagePrefix req d ++
      match outcome with
      | .valueError e =>
          if strContains e "Exa" then [failU e "Exa enrichment failed"]
          else [failU e "Error occurred"]
      | .exc e => [failU e "Error occurred"]
      | .ok personas =>
          [personaPostGenStage req, stageU "Processing AI response" 85] ++
          if personas.isEmpty then [failNoStageU "No persona generated"]
          else [personaSavingStage req,
                personaCompleteU req personas generation_time now]

/-- The request fields `generate_goal_background` reads. -/
structure GoalRequest where
  count : Nat
deriving DecidableEq, Repr

/-- A generated goal, by the only field the job trace reads. -/
structure Goal where
  name : String
deriving DecidableEq, Repr

/-- Outcome of the `goal_manager.generate` collaborator call. -/
inductive GoalGenOutcome where
  | ok (goals : List Goal)
  | exc (msg : String)
deriving DecidableEq, Repr

/-- Python `f"{c} goal{'s' if c > 1 else ''}"`. -/
def goalCountText (c : Nat) : String :=
  toString c ++ " goal" ++ (if 1 < c then "s" else "")

/-- The completion write of `generate_goal_background`; note that it
supplies no `completed_at`.  The measured generation time is buried in
the opaque result payload, not written to a job field. -/
def goalCompleteU (goals : List Goal) (_generation_time : Rat) : JobUpdate :=
  { JobUpdate.empty with
      status := some "completed",
      stage := some "Goal generation complete",
      progress := some 100,
      result := some ("✓ Created " ++ goalCountText goals.length ++ ": "
        ++ String.intercalate ", " (goals.map Goal.name)) }

/-- `generate_goal_background` (server.py) as its ordered `update_job`
trace: three context/progress stages, then the collaborator call, whose
raise is recorded as `status="failed", stage="Generation failed"`. -/
def generate_goal_background (req : GoalRequest) (outcome : GoalGenOutcome)
    (generation_time : Rat) : List JobUpdate :=
  [stageU "Loading product documentation..." 10,
   stageU "Loading persona context..." 20,
   stageU ("🤖 AI generating " ++ goalCountText req.count
     ++ " (analyzing context, defining objectives)...") 30] ++
  match outcome with
  | .exc e => [failU e "Generation failed"]
  | .ok goals =>
      if goals.isEmpty then
        [failNoStageU "Goal generation failed - no goals returned"]
      else
        [goalCompleteU goals generation_time]

/-- Replay a job-update trace against the registry. -/
def runJobTrace (reg : JobRegistry) (job_id : String)
    (trace : List JobUpdate) : JobRegistry :=
  trace.foldl (fun r u => update_job r job_id u) reg

/-- The synchronous part of `generate_goal_async` (server.py): create the
job, then immediately write `status="queued", stage="Initializing goal
generation", progress=0` before detaching the background task. -/
def generate_goal_async_start (reg : JobRegistry) (job_id : String)
    (now : Nat) : JobRegistry :=
  let r := create_job reg job_id now
  update_job r.2 r.1.id
    { JobUpdate.empty with
        status := some "queued",
        stage := some "Initializing goal generation",
        progress := some 0 }

/-!  ## Theorems settling the claims  -/

theorem rewards_foldl_spec (messages : List RawMsg) :
    ∀ acc : RewardAgg,
      (messages.foldl rewardStep acc).total_reward
          = acc.total_reward + (presentRewards messages).sum
      ∧ (messages.foldl rewardStep acc).positive_rewards
          = acc.positive_rewards
            + ((presentRewards messages).filter (fun r => decide (0 < r))).sum
      ∧ (messages.foldl rewardStep acc).negative_penalties
          = acc.negative_penalties
            + (((presentRewards messages).filter
                (fun r => decide (r < 0))).map (fun r => abs r)).sum := by
  induction messages with
  | nil => intro acc; simp [presentRewards]
  | cons m t ih =>
      intro acc
      obtain ⟨ih1, ih2, ih3⟩ := ih (rewardStep acc m)
      simp only [List.foldl_cons]
      rw [ih1, ih2, ih3]
      cases m with
      | nondict =>
          simp [rewardStep, presentRewards, messageReward, List.filterMap_cons]
      | dict ty c kw =>
          cases hr : kw.reward with
          | none =>
              simp [rewardStep, presentRewards, messageReward,
                List.filterMap_cons, hr]
          | some r =>
              rcases lt_trichotomy 0 r with h | h | h
              · have h2 : ¬(r < 0) := by linarith
                simp [rewardStep, presentRewards, messageReward,
                  List.filterMap_cons, hr, h, h2]
                refine ⟨by ring, by ring⟩
              · subst h
                simp [rewardStep, presentRewards, messageReward,
                  List.filterMap_cons, hr]
              · have h2 : ¬(0 < r) := by linarith
                simp [rewardStep, presentRewards, messageReward,
                  List.filterMap_cons, hr, h, h2]
                refine ⟨by ring, by ring⟩

theorem sum_eq_pos_sub_negAbs (l : List Rat) :
    l.sum = (l.filter (fun r => decide (0 < r))).sum
      - ((l.filter (fun r => decide (r < 0))).map (fun r => abs r)).sum := by
  induction l with
  | nil => simp
  | cons r t ih =>
      rcases lt_trichotomy 0 r with h | h | h
      · have h2 : ¬(r < 0) := by linarith
        simp [h, h2, ih]
        ring
      · rw [← h]
        simp [ih]
      · have h2 : ¬(0 < r) := by linarith
        simp [h, h2, ih, abs_of_neg h]
        ring

/-- C2: the reward aggregation of `run_evaluation` computes the total of
all present rewards, the sum of the positive rewards, and the sum of the
absolute values of the negative rewards, and the three always satisfy
`total = positive - penalties`; messages without a reward contribute
nothing. -/
theorem claim_C2 (messages : List RawMsg) :
    (run_evaluation_rewards messages).total_reward
        = (presentRewards messages).sum
  ∧ (run_evaluation_rewards messages).positive_rewards
        = ((presentRewards messages).filter (fun r => decide (0 < r))).sum
  ∧ (run_evaluation_rewards messages).negative_penalties
        = (((presentRewards messages).filter
            (fun r => decide (r < 0))).map (fun r => abs r)).sum
  ∧ (run_evaluation_rewards messages).total_reward
        = (run_evaluation_rewards messages).positive_rewards
          - (run_evaluation_rewards messages).negative_penalties := by
  obtain ⟨h1, h2, h3⟩ := rewards_foldl_spec messages
    { total_reward := 0, positive_rewards := 0, negative_penalties := 0 }
  have e1 : (run_evaluation_rewards messages).total_reward
      = (presentRewards messages).sum := by
    simpa [run_evaluation_rewards] using h1
  have e2 : (run_evaluation_rewards messages).positive_rewards
      = ((presentRewards messages).filter (fun r => decide (0 < r))).sum := by
    simpa [run_evaluation_rewards] using h2
  have e3 : (run_evaluation_rewards messages).negative_penalties
      = (((presentRewards messages).filter
          (fun r => decide (r < 0))).map (fun r => abs r)).sum := by
    simpa [run_evaluation_rewards] using h3
  refine ⟨e1, e2, e3, ?_⟩
  rw [e1, e2, e3]
  exact sum_eq_pos_sub_negAbs (presentRewards messages)

/-- C4: the claim that every stored job status lies in
{pending, running, completed, failed} fails on the code:
`generate_goal_async` immediately stores `status="queued"` on the job it
creates, a value outside the documented set. -/
theorem claim_C4 :
    (get_job (generate_goal_async_start [] "job-1" 0) "job-1").map
        GenerationJob.status = some "queued"
  ∧ ¬("queued" ∈ (["pending", "running", "completed", "failed"] :
        List String)) := by
  refine ⟨by decide, by decide⟩

/-- C10: `get_thread_status` is total; an unknown thread id yields the
distinct `{"status": "unknown"}` default (not an empty record), and a
recorded id yields the stored record. -/
theorem claim_C10 (reg : ThreadStatusRegistry) (thread_id : String) :
    (regGet reg thread_id = none →
        get_thread_status reg thread_id = unknownThreadStatus
        ∧ (get_thread_status reg thread_id).status = "unknown")
  ∧ (∀ r, regGet reg thread_id = some r →
        get_thread_status reg thread_id = r) := by
  constructor
  · intro h
    constructor
    · simp [get_thread_status, h]
    · simp [get_thread_status, h, unknownThreadStatus]
  · intro r h
    simp [get_thread_status, h]

def sampleThreadStatus : ThreadStatus :=
  { status := "running", stopped_reason := none, current_turn := some 2,
    max_turns := some 5 }

theorem claim_C10_witness :
    (get_thread_status [] "thread-missing" = unknownThreadStatus
      ∧ (get_thread_status [] "thread-missing").status = "unknown")
  ∧ get_thread_status [("thread-1", sampleThreadStatus)] "thread-1"
      = sampleThreadStatus :=
  ⟨(claim_C10 [] "thread-missing").1 rfl,
   (claim_C10 [("thread-1", sampleThreadStatus)] "thread-1").2 _ rfl⟩

theorem humanMessageSum_eq_countUserMessages (messages : List RawMsg) :
    humanMessageSum messages = countUserMessages messages := by
  induction messages with
  | nil => rfl
  | cons m t ih =>
      unfold humanMessageSum countUserMessages at ih ⊢
      rw [List.map_cons, List.sum_cons, List.countP_cons, ih]
      cases m with
      | nondict => simp
      | dict ty c kw =>
          cases h : (ty == "human")
          · simp [h]
          · simp [h]
            omega

/-- C6: the `current_turn` derived by `get_simulation_status` equals the
count of user-role ("human") messages in the last checkpoint message
list; for an empty message list it is 0. -/
theorem claim_C6 (history : ThreadHistory) :
    (get_simulation_status_view history).current_turn
        = countUserMessages (extract_messages history)
  ∧ (extract_messages history = [] →
      (get_simulation_status_view history).current_turn = 0) := by
  constructor
  · simp [get_simulation_status_view]
    exact humanMessageSum_eq_countUserMessages (extract_messages history)
  · intro h
    simp [get_simulation_status_view, h, humanMessageSum]

def sampleTurnHistory : ThreadHistory :=
  ThreadHistory.hlist
    [Checkpoint.cdict (some
      [RawMsg.dict "human" "hello" { reward := none, stop := none },
       RawMsg.dict "ai" "hi there" { reward := some 1, stop := none },
       RawMsg.nondict,
       RawMsg.dict "human" "bye" { reward := none, stop := some false }])]

theorem claim_C6_witness :
    ((get_simulation_status_view sampleTurnHistory).current_turn
        = countUserMessages (extract_messages sampleTurnHistory)
      ∧ countUserMessages (extract_messages sampleTurnHistory) = 2)
  ∧ (get_simulation_status_view (ThreadHistory.hlist [])).current_turn = 0 :=
  ⟨⟨(claim_C6 sampleTurnHistory).1, by decide⟩,
   (claim_C6 (ThreadHistory.hlist [])).2 rfl⟩

/-- C1: for every reconciled thread, the derived status is `"completed"`
exactly when the embedded `stop` flag of the last message is true, and
`should_continue_polling` is true exactly when `stop` is not set on the
last message or the last message role is `"human"`; in particular a last
message with `stop=true` and role `"human"` still reports
`should_continue_polling=true`.  When there is no last dict message the
status is `"running"` and polling continues. -/
theorem claim_C1 (history : ThreadHistory) :
    (∀ (t c : String) (kw : MsgKwargs),
      (extract_messages history).getLast? = some (RawMsg.dict t c kw) →
        ((get_simulation_status_view history).status = "completed"
            ↔ kw.stop.getD false = true)
        ∧ ((get_simulation_status_view history).should_continue_polling = true
            ↔ (kw.stop.getD false = false ∨ t = "human"))
        ∧ (kw.stop.getD false = true → t = "human" →
            (get_simulation_status_view history).should_continue_polling
              = true))
  ∧ ((extract_messages history).getLast? = none
      ∨ (extract_messages history).getLast? = some RawMsg.nondict →
        (get_simulation_status_view history).status = "running"
        ∧ (get_simulation_status_view history).should_continue_polling
            = true) := by
  constructor
  · intro t c kw h
    have hs : lastMsgStop (extract_messages history) = kw.stop.getD false := by
      simp [lastMsgStop, h]
    have hh : lastMsgIsHuman (extract_messages history) = (t == "human") := by
      simp [lastMsgIsHuman, h]
    refine ⟨?_, ?_, ?_⟩
    · simp only [get_simulation_status_view, hs]
      cases hb : kw.stop.getD false <;> simp
    · simp only [get_simulation_status_view, hs, hh]
      cases hb : kw.stop.getD false <;> simp
    · intro h1 h2
      simp only [get_simulation_status_view, hs, hh, h1, h2]
      simp
  · intro h
    have hs : lastMsgStop (extract_messages history) = false := by
      rcases h with h | h <;> simp [lastMsgStop, h]
    constructor
    · simp [get_simulation_status_view, hs]
    · simp [get_simulation_status_view, hs]

def sampleStopHumanHistory : ThreadHistory :=
  ThreadHistory.hlist
    [Checkpoint.cdict (some
      [RawMsg.dict "ai" "how can I help" { reward := none, stop := none },
       RawMsg.dict "human" "stop now" { reward := none, stop := some true }])]

theorem claim_C1_witness :
    ((get_simulation_status_view sampleStopHumanHistory).status = "completed"
      ↔ (some true : Option Bool).getD false = true)
  ∧ (get_simulation_status_view sampleStopHumanHistory).should_continue_polling
      = true :=
  ⟨((claim_C1 sampleStopHumanHistory).1 "human" "stop now"
      { reward := none, stop := some true } rfl).1,
   ((claim_C1 sampleStopHumanHistory).1 "human" "stop now"
      { reward := none, stop := some true } rfl).2.2 rfl rfl⟩

/-- C5: `stop_simulation` returns whether the id exists, leaves the
registry untouched on an unknown id, sets `should_stop` on a known id,
and is idempotent: a second call leaves the registry exactly as one call
does, returning the same value as any call on an existing id. -/
theorem claim_C5 (reg : SessionRegistry) (sid : String) :
    ((stop_simulation reg sid).1 = true
        ↔ (get_simulation_session reg sid).isSome = true)
  ∧ (get_simulation_session reg sid = none →
        stop_simulation reg sid = (false, reg))
  ∧ (∀ s, get_simulation_session reg sid = some s →
        get_simulation_session (stop_simulation reg sid).2 sid
          = some { s with should_stop := true })
  ∧ (stop_simulation (stop_simulation reg sid).2 sid).2
        = (stop_simulation reg sid).2
  ∧ (stop_simulation (stop_simulation reg sid).2 sid).1
        = (stop_simulation reg sid).1 := by
  cases h : get_simulation_session reg sid with
  | none =>
      constructor
      · simp [stop_simulation, h]
      constructor
      · intro _
        simp [stop_simulation, h]
      constructor
      · intro s hs
        exact Option.noConfusion hs
      constructor
      · simp [stop_simulation, h]
      · simp [stop_simulation, h]
  | some s =>
      have h2 : get_simulation_session
          (regSet reg sid { s with should_stop := true }) sid
          = some { s with should_stop := true } :=
        regGet_regSet_same reg sid { s with should_stop := true }
      constructor
      · simp [stop_simulation, h]
      constructor
      · intro hn
        exact Option.noConfusion hn
      constructor
      · intro s2 hs2
        injection hs2 with he
        subst he
        simp only [stop_simulation, h]
        exact h2
      constructor
      · simp only [stop_simulation, h, h2]
        have h3 : ({ { s with should_stop := true } with
            should_stop := true } : SimSession)
            = { s with should_stop := true } := rfl
        rw [h3]
        exact regSet_regSet_same reg sid _ _
      · simp [stop_simulation, h, h2]

def sampleSessionRegistry : SessionRegistry :=
  (create_simulation_session [] "sim-1" "persona-1" "goal-1" 5
    "2024-01-01T00:00:00+00:00").2

def sampleSession : SimSession :=
  (create_simulation_session [] "sim-1" "persona-1" "goal-1" 5
    "2024-01-01T00:00:00+00:00").1

theorem claim_C5_witness :
    (stop_simulation sampleSessionRegistry "sim-1").1 = true
  ∧ get_simulation_session
      (stop_simulation sampleSessionRegistry "sim-1").2 "sim-1"
      = some { sampleSession with should_stop := true }
  ∧ (stop_simulation
        (stop_simulation sampleSessionRegistry "sim-1").2 "sim-1").2
      = (stop_simulation sampleSessionRegistry "sim-1").2
  ∧ stop_simulation sampleSessionRegistry "sim-missing"
      = (false, sampleSessionRegistry) :=
  ⟨(claim_C5 sampleSessionRegistry "sim-1").1.mpr (by decide),
   (claim_C5 sampleSessionRegistry "sim-1").2.2.1 sampleSession (by decide),
   (claim_C5 sampleSessionRegistry "sim-1").2.2.2.1,
   (claim_C5 sampleSessionRegistry "sim-missing").2.1 (by decide)⟩

/-- C7: `update_job` and `update_simulation_session` are total no-ops on
an unknown id (no exception, registry unchanged); on a known id they
modify only that entry, `update_job` applying exactly the supplied
partial field update; `get_job` on an unknown id returns the `none`
not-found result rather than raising. -/
theorem claim_C7 (jreg : JobRegistry) (jid : String) (u : JobUpdate)
    (sreg : SessionRegistry) (sid : String) (su : SessionUpdate)
    (now : String) :
    (get_job jreg jid = none → update_job jreg jid u = jreg)
  ∧ (get_simulation_session sreg sid = none →
        update_simulation_session sreg sid su now = sreg)
  ∧ (∀ k, ¬(k = jid) →
        get_job (update_job jreg jid u) k = get_job jreg k)
  ∧ (∀ k, ¬(k = sid) →
        get_simulation_session (update_simulation_session sreg sid su now) k
          = get_simulation_session sreg k)
  ∧ (∀ j, get_job jreg jid = some j →
        get_job (update_job jreg jid u) jid = some (applyJobUpdate j u)) := by
  constructor
  · intro h
    simp [update_job, h]
  constructor
  · intro h
    simp [update_simulation_session, h]
  constructor
  · intro k hk
    cases h : get_job jreg jid with
    | none => simp [update_job, h]
    | some j =>
        simp only [update_job, h]
        exact regGet_regSet_other jreg jid k (applyJobUpdate j u) hk
  constructor
  · intro k hk
    cases h : get_simulation_session sreg sid with
    | none => simp [update_simulation_session, h]
    | some s =>
        simp only [update_simulation_session, h]
        exact regGet_regSet_other sreg sid k (applySessionUpdate s su now) hk
  · intro j h
    simp only [update_job, h]
    exact regGet_regSet_same jreg jid (applyJobUpdate j u)

def sampleJobRegistry : JobRegistry :=
  (create_job [] "job-1" 100).2

def sampleJob : GenerationJob :=
  (create_job [] "job-1" 100).1

def sampleJobUpdate : JobUpdate :=
  { JobUpdate.empty with
      status := some "running",
      stage := some "Preparing generation",
      progress := some 10 }

def sampleSessionUpdate : SessionUpdate :=
  { status := some "failed", current_turn := none, new_messages := [],
    goal_achieved := none, error := some "boom" }

theorem claim_C7_witness :
    update_job sampleJobRegistry "job-missing" sampleJobUpdate
        = sampleJobRegistry
  ∧ update_simulation_session sampleSessionRegistry "sim-missing"
        sampleSessionUpdate "2024-01-01T01:00:00+00:00"
      = sampleSessionRegistry
  ∧ get_job (update_job sampleJobRegistry "job-1" sampleJobUpdate) "job-2"
      = get_job sampleJobRegistry "job-2"
  ∧ get_job (update_job sampleJobRegistry "job-1" sampleJobUpdate) "job-1"
      = some (applyJobUpdate sampleJob sampleJobUpdate) :=
  ⟨(claim_C7 sampleJobRegistry "job-missing" sampleJobUpdate
      sampleSessionRegistry "sim-missing" sampleSessionUpdate
      "2024-01-01T01:00:00+00:00").1 (by decide),
   (claim_C7 sampleJobRegistry "job-missing" sampleJobUpdate
      sampleSessionRegistry "sim-missing" sampleSessionUpdate
      "2024-01-01T01:00:00+00:00").2.1 (by decide),
   (claim_C7 sampleJobRegistry "job-1" sampleJobUpdate
      sampleSessionRegistry "sim-1" sampleSessionUpdate
      "2024-01-01T01:00:00+00:00").2.2.1 "job-2" (by decide),
   (claim_C7 sampleJobRegistry "job-1" sampleJobUpdate
      sampleSessionRegistry "sim-1" sampleSessionUpdate
      "2024-01-01T01:00:00+00:00").2.2.2.2 sampleJob (by decide)⟩

theorem regGet_filter_of_keep {α : Type} (reg : List (String × α))
    (q : String × α → Bool) (k : String) (v : α)
    (h : regGet reg k = some v) (hv : q (k, v) = true) :
    regGet (reg.filter q) k = some v := by
  induction reg with
  | nil => cases h
  | cons p rest ih =>
      obtain ⟨k2, v2⟩ := p
      by_cases hk : k2 = k
      · subst hk
        simp only [regGet, beq_self_eq_true, if_true] at h
        injection h with hv2
        subst hv2
        simp [List.filter_cons, hv, regGet]
      · simp only [regGet, beq_iff_eq, hk, if_false] at h
        by_cases hq : q (k2, v2) = true
        · simp [List.filter_cons, hq, regGet, hk, ih h]
        · simp only [List.filter_cons, Bool.not_eq_true] at hq ⊢
          rw [hq]
          exact ih h

theorem regGet_filter_none {α : Type} (reg : List (String × α))
    (q : String × α → Bool) (k : String)
    (h : regGet (reg.filter q) k = none) :
    regGet reg k = none
    ∨ ∃ v, regGet reg k = some v ∧ q (k, v) = false := by
  induction reg with
  | nil => exact Or.inl rfl
  | cons p rest ih =>
      obtain ⟨k2, v2⟩ := p
      by_cases hk : k2 = k
      · subst hk
        by_cases hq : q (k2, v2) = true
        · rw [List.filter_cons, if_pos hq] at h
          simp [regGet] at h
        · refine Or.inr ⟨v2, by simp [regGet], ?_⟩
          simpa using hq
      · by_cases hq : q (k2, v2) = true
        · rw [List.filter_cons, if_pos hq] at h
          simp only [regGet, beq_iff_eq, hk, if_false] at h ⊢
          exact ih h
        · rw [List.filter_cons, if_neg hq] at h
          simp only [regGet, beq_iff_eq, hk, if_false]
          exact ih h

/-- C9: the cleanup sweep never removes a session without a set
`completed_at` (however old its `started_at` is), and a removed session
always had a `completed_at` below the cutoff. -/
theorem claim_C9 (reg : SessionRegistry) (cutoff : String) (sid : String) :
    (∀ s, get_simulation_session reg sid = some s → s.completed_at = none →
        get_simulation_session (cleanup_old_sessions reg cutoff) sid = some s)
  ∧ (get_simulation_session (cleanup_old_sessions reg cutoff) sid = none →
        get_simulation_session reg sid = none
        ∨ ∃ s c, get_simulation_session reg sid = some s
            ∧ s.completed_at = some c ∧ c < cutoff) := by
  constructor
  · intro s hs hc
    have hq : (!(sessionRemovable s cutoff)) = true := by
      simp [sessionRemovable, hc]
    exact regGet_filter_of_keep reg _ sid s hs hq
  · intro h
    rcases regGet_filter_none reg _ sid h with hn | ⟨s, hs, hq⟩
    · exact Or.inl hn
    · unfold sessionRemovable at hq
      cases hc : s.completed_at with
      | none =>
          rw [hc] at hq
          simp at hq
      | some c =>
          rw [hc] at hq
          have hq2 : (!(!(c == "") && decide (c < cutoff))) = false := hq
          have h1 : (!(c == "") && decide (c < cutoff)) = true := by
            cases hb : (!(c == "") && decide (c < cutoff)) with
            | true => rfl
            | false => rw [hb] at hq2; exact Bool.noConfusion hq2
          exact Or.inr ⟨s, c, hs, hc,
            of_decide_eq_true ((Bool.and_eq_true _ _).mp h1).2⟩

theorem claim_C9_witness :
    get_simulation_session sampleSessionRegistry "sim-1"
        = some sampleSession
  ∧ sampleSession.completed_at = none
  ∧ get_simulation_session
      (cleanup_old_sessions sampleSessionRegistry "9999-12-31T23:59:59+00:00")
      "sim-1"
      = some sampleSession :=
  ⟨by decide, by decide,
   (claim_C9 sampleSessionRegistry "9999-12-31T23:59:59+00:00" "sim-1").1
     sampleSession (by decide) (by decide)⟩

/-- C3 (amended): `completed_at` is not write-once.  Every
`update_simulation_session` call whose `status` argument is terminal
(completed / failed / stopped) reassigns `completed_at` to the current
time on an existing session, overwriting any earlier value; `update_job`
changes `completed_at` only when the update explicitly supplies it. -/
theorem claim_C3_amended (reg : SessionRegistry) (sid : String)
    (u : SessionUpdate) (now : String) (st : String) (s : SimSession)
    (hst : u.status = some st)
    (hterm : st = "completed" ∨ st = "failed" ∨ st = "stopped")
    (hs : get_simulation_session reg sid = some s) :
    (∃ s2, get_simulation_session
        (update_simulation_session reg sid u now) sid = some s2
      ∧ s2.completed_at = some now)
  ∧ (∀ (jreg : JobRegistry) (jid : String) (ju : JobUpdate)
        (j : GenerationJob), ju.completed_at = none →
        get_job jreg jid = some j →
        (get_job (update_job jreg jid ju) jid).map GenerationJob.completed_at
          = some j.completed_at) := by
  constructor
  · refine ⟨applySessionUpdate s u now, ?_, ?_⟩
    · simp only [update_simulation_session, hs]
      exact regGet_regSet_same reg sid (applySessionUpdate s u now)
    · have ht : terminalStatusArg u.status = true := by
        rw [hst]
        rcases hterm with h | h | h <;> simp [terminalStatusArg, h]
      unfold applySessionUpdate
      rw [ht]
      simp
  · intro jreg jid ju j hj hget
    have hget2 : regGet jreg jid = some j := hget
    simp only [update_job, get_job, hget2]
    rw [regGet_regSet_same jreg jid (applyJobUpdate j ju)]
    simp [applyJobUpdate, mergeOpt, hj]

def stoppedUpdate : SessionUpdate :=
  { status := some "stopped", current_turn := none, new_messages := [],
    goal_achieved := none, error := none }

theorem claim_C3_amended_witness :
    (∃ s2, get_simulation_session
        (update_simulation_session sampleSessionRegistry "sim-1"
          stoppedUpdate "2024-01-01T01:00:00+00:00") "sim-1" = some s2
      ∧ s2.completed_at = some "2024-01-01T01:00:00+00:00") :=
  ((claim_C3_amended sampleSessionRegistry "sim-1" stoppedUpdate
      "2024-01-01T01:00:00+00:00" "stopped" sampleSession rfl
      (Or.inr (Or.inr rfl)) (by decide)).1)

def c3Registry1 : SessionRegistry :=
  update_simulation_session sampleSessionRegistry "sim-1" stoppedUpdate
    "2024-01-01T01:00:00+00:00"

def c3Registry2 : SessionRegistry :=
  update_simulation_session c3Registry1 "sim-1" stoppedUpdate
    "2024-01-01T02:00:00+00:00"

/-- C3 (counterexample): stopping an already-stopped session writes
`completed_at` again: after a second terminal update the stored
`completed_at` is the second timestamp, not the first, so `completed_at`
is not set exactly once on the first terminal transition. -/
theorem claim_C3_counterexample :
    (get_simulation_session c3Registry1 "sim-1").map SimSession.completed_at
        = some (some "2024-01-01T01:00:00+00:00")
  ∧ (get_simulation_session c3Registry2 "sim-1").map SimSession.completed_at
        = some (some "2024-01-01T02:00:00+00:00")
  ∧ ¬((get_simulation_session c3Registry2 "sim-1").map SimSession.completed_at
        = (get_simulation_session c3Registry1 "sim-1").map
            SimSession.completed_at) := by
  refine ⟨by decide, by decide, by decide⟩

/-- No write in the trace marks the job completed. -/
def noCompletedWrite (trace : List JobUpdate) : Prop :=
  ∀ u ∈ trace, ¬(u.status = some "completed")

theorem getLast?_append_single {α : Type} (l : List α) (a : α) :
    (l ++ [a]).getLast? = some a := by
  rw [List.getLast?_append_cons]
  rfl

theorem personaStagePrefix_status (req : PersonaRequest) (d : String) :
    ∀ u ∈ personaStagePrefix req d,
      u.status = some "running" ∨ u.status = none := by
  intro u hu
  unfold personaStagePrefix at hu
  simp only [List.append_assoc, List.mem_append, List.mem_singleton] at hu
  rcases hu with rfl | hu | hu | hu
  · exact Or.inl rfl
  · split at hu
    · simp only [List.mem_singleton] at hu
      subst hu
      exact Or.inr rfl
    · simp at hu
  · split at hu
    · simp only [List.mem_singleton] at hu
      subst hu
      exact Or.inr rfl
    · simp at hu
  · split at hu
    · simp only [List.mem_singleton] at hu
      subst hu
      exact Or.inr rfl
    · simp at hu

theorem noCompleted_of_append {l1 l2 : List JobUpdate}
    (h1 : noCompletedWrite l1) (h2 : noCompletedWrite l2) :
    noCompletedWrite (l1 ++ l2) := by
  intro u hu
  rcases List.mem_append.mp hu with h | h
  · exact h1 u h
  · exact h2 u h

theorem noCompleted_personaStagePrefix (req : PersonaRequest) (d : String) :
    noCompletedWrite (personaStagePrefix req d) := by
  intro u hu
  rcases personaStagePrefix_status req d u hu with h | h <;> simp [h]

theorem noCompleted_failU (e st : String) :
    noCompletedWrite [failU e st] := by
  intro u hu
  simp only [List.mem_singleton] at hu
  subst hu
  simp [failU, JobUpdate.empty]

/-- C8 (amended): when the external collaborator raises, the job is
written with `status="failed"` and `error=<message>` as the trace's final
write, and no completion write ever occurs — but the failure stage label
is workflow-specific, not always `"Error occurred"`: persona generation
writes `"Error occurred"` (or `"Exa enrichment failed"` for an Exa
`ValueError`), while goal generation writes `"Generation failed"`. -/
theorem claim_C8_amended (preq : PersonaRequest) (greq : GoalRequest)
    (e : String) (gt : Rat) (now : Nat) (d : String)
    (hd : pyOr preq.description preq.message = some d)
    (hne : (d == "") = false) :
    ((run_persona_generation preq (PersonaGenOutcome.exc e) gt now).getLast?
        = some (failU e "Error occurred")
      ∧ noCompletedWrite
          (run_persona_generation preq (PersonaGenOutcome.exc e) gt now))
  ∧ (strContains e "Exa" = false →
      (run_persona_generation preq (PersonaGenOutcome.valueError e) gt
          now).getLast? = some (failU e "Error occurred")
      ∧ noCompletedWrite
          (run_persona_generation preq (PersonaGenOutcome.valueError e) gt
            now))
  ∧ (strContains e "Exa" = true →
      (run_persona_generation preq (PersonaGenOutcome.valueError e) gt
          now).getLast? = some (failU e "Exa enrichment failed")
      ∧ noCompletedWrite
          (run_persona_generation preq (PersonaGenOutcome.valueError e) gt
            now))
  ∧ ((generate_goal_background greq (GoalGenOutcome.exc e) gt).getLast?
        = some (failU e "Generation failed")
      ∧ noCompletedWrite
          (generate_goal_background greq (GoalGenOutcome.exc e) gt)) := by
  have hexc : run_persona_generation preq (PersonaGenOutcome.exc e) gt now
      = personaStagePrefix preq d ++ [failU e "Error occurred"] := by
    simp [run_persona_generation, hd, hne]
  have hgoal : generate_goal_background greq (GoalGenOutcome.exc e) gt
      = [stageU "Loading product documentation..." 10,
         stageU "Loading persona context..." 20,
         stageU ("🤖 AI generating " ++ goalCountText greq.count
           ++ " (analyzing context, defining objectives)...") 30]
        ++ [failU e "Generation failed"] := rfl
  have hgoalstages : noCompletedWrite
      [stageU "Loading product documentation..." 10,
       stageU "Loading persona context..." 20,
       stageU ("🤖 AI generating " ++ goalCountText greq.count
         ++ " (analyzing context, defining objectives)...") 30] := by
    intro u hu
    simp only [List.mem_cons, List.not_mem_nil, or_false] at hu
    rcases hu with rfl | rfl | rfl <;> simp [stageU, JobUpdate.empty]
  refine ⟨⟨?_, ?_⟩, fun hx => ⟨?_, ?_⟩, fun hx => ⟨?_, ?_⟩, ⟨?_, ?_⟩⟩
  · rw [hexc]
    exact getLast?_append_single _ _
  · rw [hexc]
    exact noCompleted_of_append (noCompleted_personaStagePrefix preq d)
      (noCompleted_failU e "Error occurred")
  · have hve : run_persona_generation preq (PersonaGenOutcome.valueError e)
        gt now = personaStagePrefix preq d ++ [failU e "Error occurred"] := by
      simp [run_persona_generation, hd, hne, hx]
    rw [hve]
    exact getLast?_append_single _ _
  · have hve : run_persona_generation preq (PersonaGenOutcome.valueError e)
        gt now = personaStagePrefix preq d ++ [failU e "Error occurred"] := by
      simp [run_persona_generation, hd, hne, hx]
    rw [hve]
    exact noCompleted_of_append (noCompleted_personaStagePrefix preq d)
      (noCompleted_failU e "Error occurred")
  · have hve : run_persona_generation preq (PersonaGenOutcome.valueError e)
        gt now
        = personaStagePrefix preq d ++ [failU e "Exa enrichment failed"] := by
      simp [run_persona_generation, hd, hne, hx]
    rw [hve]
    exact getLast?_append_single _ _
  · have hve : run_persona_generation preq (PersonaGenOutcome.valueError e)
        gt now
        = personaStagePrefix preq d ++ [failU e "Exa enrichment failed"] := by
      simp [run_persona_generation, hd, hne, hx]
    rw [hve]
    exact noCompleted_of_append (noCompleted_personaStagePrefix preq d)
      (noCompleted_failU e "Exa enrichment failed")
  · rw [hgoal]
    exact getLast?_append_single _ _
  · rw [hgoal]
    exact noCompleted_of_append hgoalstages
      (noCompleted_failU e "Generation failed")

/-- C8 (counterexample): a collaborator failure inside the goal
generation workflow records stage `"Generation failed"`, not
`"Error occurred"`, so the claimed universal `stage="Error occurred"`
failure write does not hold for every staged workflow. -/
theorem claim_C8_counterexample :
    (generate_goal_background { count := 1 } (GoalGenOutcome.exc "boom")
        0).getLast? = some (failU "boom" "Generation failed")
  ∧ (failU "boom" "Generation failed").status = some "failed"
  ∧ (failU "boom" "Generation failed").error = some "boom"
  ∧ ¬((failU "boom" "Generation failed").stage = some "Error occurred") := by
  refine ⟨by decide, by decide, by decide, by decide⟩

def samplePersonaRequest : PersonaRequest :=
  { description := some "a curious customer", message := none,
    model := "gpt-4o-mini", count := 1, organization_id := none,
    use_exa_enrichment := false, non_default_config := false }

theorem claim_C8_amended_witness :
    (run_persona_generation samplePersonaRequest
        (PersonaGenOutcome.exc "boom") 0 0).getLast?
      = some (failU "boom" "Error occurred")
  ∧ (generate_goal_background { count := 1 } (GoalGenOutcome.exc "boom")
        0).getLast? = some (failU "boom" "Generation failed") :=
  ⟨(claim_C8_amended samplePersonaRequest { count := 1 } "boom" 0 0
      "a curious customer" rfl (by decide)).1.1,
   (claim_C8_amended samplePersonaRequest { count := 1 } "boom" 0 0
      "a curious customer" rfl (by decide)).2.2.2.1⟩
